import Mathlib

/-!
Shallow embedding of `src/modulus/models/diffusion/guidance.py`: the
`GuidanceNet` module.  The constructor (`__init__`, lines 111–208) is
modelled as a function from the configuration to the ordered list of
sub-layers it builds together with its outcome, tracking the instance
attributes it assigns so that Python attribute lookups can be settled.
The forward pass (lines 210–240) is modelled as a function of an explicit
state record holding exactly the attributes the forward code reads, with
the embedding path over rational matrices and the image path over an
abstract tensor type; the numerical kernels of the external framework
(silu, the layer computations, the random draws) are abstract parameters,
matching the spec's declared non-goals.
-/

namespace Guidance

/-- Constructor configuration of `GuidanceNet.__init__` (lines 111–126),
with the source's default values. -/
structure Config where
  img_resolution : Nat
  in_channels : Nat
  out_channels : Nat
  label_dim : Nat := 0
  augment_dim : Nat := 0
  model_channels : Nat := 192
  channel_mult : List Nat := [1, 2, 3, 4]
  channel_mult_emb : Nat := 4
  num_blocks : Nat := 3
  attn_resolutions : List Nat := [32, 16, 8]
  dropout : ℚ := 1/10
  label_dropout : ℚ := 0
  pool : String := "spatial"
deriving DecidableEq

/-- A constructed sub-layer, recorded with the structural constructor
arguments the source passes (weight-initialization keyword arguments are
elided: they select numeric schemes and do not affect structure). -/
inductive Layer
  | positionalEmbedding (num_channels : Nat)
  | linear (in_features : Nat) (out_features : Nat) (bias : Bool)
  | conv2d (in_channels : Nat) (out_channels : Nat) (kernel : Nat)
  | unetBlock (in_channels : Nat) (out_channels : Nat) (down : Bool) (attention : Bool)
  | groupNorm (num_channels : Nat)
deriving DecidableEq

/-- The `in_channels` attribute of a sub-layer, defined for the layer kinds
that have one (`Conv2d`, `UNetBlock`). -/
def Layer.in_channels : Layer → Option Nat
  | .conv2d cin _ _ => some cin
  | .unetBlock cin _ _ _ => some cin
  | _ => none

/-- The `out_channels` attribute of a sub-layer, defined for the layer
kinds that have one (`Conv2d`, `UNetBlock`); line 199 reads it on every
encoder entry. -/
def Layer.out_channels : Layer → Option Nat
  | .conv2d _ cout _ => some cout
  | .unetBlock _ cout _ _ => some cout
  | _ => none

/-- `emb_channels = model_channels * channel_mult_emb` (line 129). -/
def embChannels (cfg : Config) : Nat :=
  cfg.model_channels * cfg.channel_mult_emb

/-- `self.map_augment` (lines 147–156): a bias-free `Linear` when
`augment_dim` is truthy (non-zero), otherwise `None`. -/
def mapAugmentLayer (cfg : Config) : Option Layer :=
  if cfg.augment_dim ≠ 0 then
    some (Layer.linear cfg.augment_dim cfg.model_channels false)
  else none

/-- `self.map_label` (lines 163–173): a bias-free `Linear` when
`label_dim` is truthy (non-zero), otherwise `None`. -/
def mapLabelLayer (cfg : Config) : Option Layer :=
  if cfg.label_dim ≠ 0 then
    some (Layer.linear cfg.label_dim (embChannels cfg) false)
  else none

/-- The mapping-stack sub-layers built at lines 146–173, in construction
order: `map_noise`, optional `map_augment`, `map_layer0`, `map_layer1`,
optional `map_label`. -/
def mappingLayers (cfg : Config) : List Layer :=
  [Layer.positionalEmbedding cfg.model_channels]
    ++ (mapAugmentLayer cfg).toList
    ++ [Layer.linear cfg.model_channels (embChannels cfg) true,
        Layer.linear (embChannels cfg) (embChannels cfg) true]
    ++ (mapLabelLayer cfg).toList

/-- Inner encoder loop (lines 190–198): `for idx in range(num_blocks)`,
each iteration sets `cin := cout`, `cout := model_channels * mult` and
registers a `UNetBlock` keyed `"{res}x{res}_block{idx}"`, with attention
exactly when `res` is in `attn_resolutions`.  Returns the entries and the
final running `cout`. -/
def encInner (res mc mult : Nat) (attn : List Nat) :
    Nat → Nat → Nat → List (String × Layer) × Nat
  | 0, _, cout => ([], cout)
  | n + 1, idx, cout =>
    let cin := cout
    let cout2 := mc * mult
    let rest := encInner res mc mult attn n (idx + 1) cout2
    ((s!"{res}x{res}_block{idx}",
        Layer.unetBlock cin cout2 false (attn.contains res)) :: rest.1,
      rest.2)

/-- Outer encoder loop (lines 178–198): `for level, mult in
enumerate(channel_mult)`, with `res = img_resolution >> level`; level 0
registers a `Conv2d` keyed `"{res}x{res}_conv"` taking the running `cout`
to `model_channels * mult`, later levels register a downsampling
`UNetBlock` keyed `"{res}x{res}_down"` preserving the running `cout`; then
the inner block loop runs.  Returns the entries and the final running
`cout`. -/
def encOuter (imgRes mc nblocks : Nat) (attn : List Nat) :
    List Nat → Nat → Nat → List (String × Layer) × Nat
  | [], _, cout => ([], cout)
  | mult :: rest, level, cout =>
    let res := imgRes >>> level
    let first :=
      if level = 0 then
        ((s!"{res}x{res}_conv", Layer.conv2d cout (mc * mult) 3), mc * mult)
      else
        ((s!"{res}x{res}_down", Layer.unetBlock cout cout true false), cout)
    let inner := encInner res mc mult attn nblocks 0 first.2
    let outer := encOuter imgRes mc nblocks attn rest (level + 1) inner.2
    (first.1 :: inner.1 ++ outer.1, outer.2)

/-- The encoder stage table `self.enc` (lines 176–198): ordered
key-to-sub-layer entries, seeded with `cout = in_channels` (line 177). -/
def encStages (cfg : Config) : List (String × Layer) :=
  (encOuter cfg.img_resolution cfg.model_channels cfg.num_blocks
      cfg.attn_resolutions cfg.channel_mult 0 cfg.in_channels).1

/-- Modelled from the spec: the generic module base class
(`modulus.models.module.Module`, consumed at line 127 via
`super().__init__(meta=MetaData())` but not included under the sources)
is "a generic module base class and a metadata descriptor used by the
toolkit for capability negotiation"; it assigns only its own metadata
bookkeeping attribute and, in particular, no attribute named
`_feature_size` or `out_channels`. -/
def baseModuleAttrNames : List String := ["meta"]

/-- The instance attributes `GuidanceNet.__init__` has assigned by the
time line 204 reads `self._feature_size`: the base-class attributes, then
`label_dropout` (line 128), `pool` (line 130), `map_noise` (line 146),
`map_augment` (line 147), `map_layer0` (line 157), `map_layer1` (line
160), `map_label` (line 163), `enc` (line 176), and `out` (line 203).
No statement assigns `_feature_size` or `out_channels`. -/
def attrsAtPooling : List String :=
  baseModuleAttrNames ++
    ["label_dropout", "pool", "map_noise", "map_augment",
     "map_layer0", "map_layer1", "map_label", "enc", "out"]

/-- Exceptions `GuidanceNet.__init__` can raise: the attribute-lookup
failure of line 204 and the `NotImplementedError` of line 208. -/
inductive InitError
  | attributeError (name : String)
  | notImplementedError (msg : String)
deriving DecidableEq

/-- A value assigned into the pooling-head dictionary `self.out`: either a
module, or a tuple of modules. -/
inductive RhsVal
  | moduleVal (l : Layer)
  | tupleVal (ls : List Layer)
deriving DecidableEq

/-- Whether a pooling-head dictionary value is a bare module (rather than
a tuple). -/
def RhsVal.isModule : RhsVal → Bool
  | .moduleVal _ => true
  | .tupleVal _ => false

/-- The entry assignments the spatial pooling branch performs (lines
204–206), as written in the source, parametrized by the values `fs` and
`oc` that the reads of `self._feature_size` (line 204) and
`self.out_channels` (line 206) would have to produce.  Line 205 is
`self.out["group_norm"] = GroupNorm(2048),` — the trailing comma makes
the right-hand side a one-element tuple. -/
def spatialPoolAssigns (fs oc : Nat) : List (String × RhsVal) :=
  [("linear_in", RhsVal.moduleVal (Layer.linear fs 2048 true)),
   ("group_norm", RhsVal.tupleVal [Layer.groupNorm 2048]),
   ("linear_out", RhsVal.moduleVal (Layer.linear 2048 oc true))]

/-- The record a successful construction would produce: the instance
attributes `__init__` sets.  (No code path reaches a successful return.) -/
structure GNet where
  label_dropout : ℚ
  pool : String
  map_noise : Layer
  map_augment : Option Layer
  map_layer0 : Layer
  map_layer1 : Layer
  map_label : Option Layer
  enc : List (String × Layer)
  out : List (String × RhsVal)
deriving DecidableEq

deriving instance DecidableEq for Except

/-- Outcome of running `GuidanceNet.__init__`: the sub-layers constructed
before the constructor returned or raised, in construction order, and the
result. -/
structure InitResult where
  built : List Layer
  result : Except InitError GNet
deriving DecidableEq

/-- The message of line 208: `f"Unexpected {pool} pooling"`. -/
def notImplementedMsg (pool : String) : String :=
  s!"Unexpected {pool} pooling"

/-- `GuidanceNet.__init__` (lines 111–208).  The mapping stack (lines
146–173) and the encoder table (lines 176–198) are built first.  Then,
for `pool == "spatial"`, line 204 reads `self._feature_size`: Python
attribute lookup over the attributes assigned so far (`attrsAtPooling`)
finds no such name, so an `AttributeError` is raised; for any other
`pool`, line 208 raises `NotImplementedError`. -/
def initGuidanceNet (cfg : Config) : InitResult :=
  let built := mappingLayers cfg ++ (encStages cfg).map Prod.snd
  if cfg.pool = "spatial" then
    if h : "_feature_size" ∈ attrsAtPooling then
      absurd h (by decide)
    else
      { built := built, result := .error (.attributeError "_feature_size") }
  else
    { built := built,
      result := .error (.notImplementedError (notImplementedMsg cfg.pool)) }

/-- Whether a constructor outcome is a successful return. -/
def initOk (r : InitResult) : Bool :=
  match r.result with
  | .ok _ => true
  | .error _ => false

/-- A batch row vector over ℚ. -/
abbrev QVec := List ℚ

/-- A batch of row vectors over ℚ (one row per sample). -/
abbrev QMat := List QVec

/-- Dot product of two rational vectors. -/
def dotQ (v w : QVec) : ℚ :=
  (List.zipWith (· * ·) v w).sum

/-- Elementwise tensor addition (`emb + ...`). -/
def matAdd (a b : QMat) : QMat :=
  List.zipWith (List.zipWith (· + ·)) a b

/-- Apply a scalar function elementwise to a batch of vectors (used for
the `silu` activation on the embedding). -/
def mapElems (f : ℚ → ℚ) (m : QMat) : QMat :=
  m.map (fun row => row.map f)

/-- A bias-free `Linear` layer applied to a batch: each input row `x` is
mapped to the vector of dot products with the weight rows (`x @ W.T`). -/
def applyLinNB (W : QMat) (m : QMat) : QMat :=
  m.map (fun row => W.map (fun wr => dotQ row wr))

/-- `tmp * (torch.rand([x.shape[0], 1], ...) >= self.label_dropout).to(dtype)`
(lines 220–222): row `i` of the label batch is scaled by 1 when the `i`-th
uniform draw compares `>= p`, by 0 otherwise (the `[B, 1]` mask broadcasts
across the row). -/
def labelMask (us : List ℚ) (p : ℚ) (m : QMat) : QMat :=
  List.zipWith (fun u row => row.map (fun a => a * (if p ≤ u then 1 else 0)))
    us m

/-- The label batch after the conditional per-sample dropout of lines
219–222: the mask is applied only when `self.training` holds and
`self.label_dropout` is truthy (non-zero). -/
def droppedLabels (training : Bool) (p : ℚ) (us : List ℚ) (cl : QMat) : QMat :=
  if training = true ∧ p ≠ 0 then labelMask us p cl else cl

/-- Whether every entry of a batch is zero. -/
def isZeroMat (m : QMat) : Bool :=
  m.all (fun row => row.all (fun a => decide (a = 0)))

/-- An encoder entry as the forward pass dispatches on it (line 229):
`UNetBlock`s receive the feature map and the embedding, every other block
(the level-0 `Conv2d`) receives the feature map alone. -/
inductive EncBlockF (I : Type)
  | conv (f : I → I)
  | unet (f : I → QMat → I)

/-- One step of the encoder loop body (line 229). -/
def runEncBlock {I : Type} (b : EncBlockF I) (x : I) (emb : QMat) : I :=
  match b with
  | .conv f => f x
  | .unet f => f x emb

/-- The encoder loop (lines 227–230): run every block in order on the
running feature map, recording each output as a skip value.  Returns the
skip list and the final feature map. -/
def runEnc {I : Type} : List (EncBlockF I) → I → QMat → List I × I
  | [], x, _ => ([], x)
  | b :: bs, x, emb =>
    let x2 := runEncBlock b x emb
    let rest := runEnc bs x2 emb
    (x2 :: rest.1, rest.2)

/-- The instance attributes `GuidanceNet.forward` reads (lines 210–240),
as a state record: the mapping layers as functions on rational batches
(`map_label` as the weight matrix of its bias-free `Linear`), the dropout
probabilities, the training flag, the encoder blocks, and the pooling-head
entries as functions on the abstract feature-tensor type `I`. -/
structure FwdState (I : Type) where
  map_noise : List ℚ → QMat
  map_augment : Option (QMat → QMat)
  map_layer0 : QMat → QMat
  map_layer1 : QMat → QMat
  map_label : Option QMat
  label_dropout : ℚ
  training : Bool
  dropout : ℚ
  enc : List (EncBlockF I)
  linear_in : I → I
  group_norm : I → I
  linear_out : I → I

/-- The external framework's fixed numerical kernels used by `forward`:
the scalar `silu` applied elementwise to the embedding (lines 215, 224)
and its counterpart on feature tensors (line 236).  Their numerics are
out of scope per the spec's non-goals. -/
structure Kernels (I : Type) where
  siluQ : ℚ → ℚ
  siluI : I → I

/-- The random draws a single forward call can consume: the per-sample
uniform draws of `torch.rand([x.shape[0], 1])` (line 221), each in
`[0, 1)`, and the masking `torch.nn.functional.dropout` applies at
probability `p` when called with `training=True` (line 237). -/
structure Rng (I : Type) where
  labelUs : List ℚ
  dropMask : ℚ → I → I

/-- `GuidanceNet.forward` (lines 210–240): mapping stack, optional
augmentation branch, optional label branch with conditional per-sample
dropout, encoder loop, then the pooling head where
`torch.nn.functional.dropout` is the identity unless `self.training`. -/
def forward {I : Type} (k : Kernels I) (st : FwdState I) (x : I)
    (noise_labels : List ℚ) (class_labels : QMat)
    (augment_labels : Option QMat) (rng : Rng I) : I :=
  let emb := st.map_noise noise_labels
  let emb :=
    match st.map_augment, augment_labels with
    | some f, some a => matAdd emb (f a)
    | _, _ => emb
  let emb := mapElems k.siluQ (st.map_layer0 emb)
  let emb := st.map_layer1 emb
  let emb :=
    match st.map_label with
    | some W =>
      matAdd emb
        (applyLinNB W
          (droppedLabels st.training st.label_dropout rng.labelUs class_labels))
    | none => emb
  let emb := mapElems k.siluQ emb
  let x := (runEnc st.enc x emb).2
  let x := st.linear_in x
  let x := st.group_norm x
  let x := k.siluI x
  let x := if st.training = true then rng.dropMask st.dropout x else x
  st.linear_out x

/-- A parameter of a Python function signature: its name and whether it
has a default value. -/
structure Param where
  name : String
  hasDefault : Bool
deriving DecidableEq

/-- The parameter list of `GuidanceNet.forward` after `self` (line 210):
`x`, `noise_labels` and `class_labels` have no default; `augment_labels`
defaults to `None`. -/
def forwardParams : List Param :=
  [⟨"x", false⟩, ⟨"noise_labels", false⟩,
   ⟨"class_labels", false⟩, ⟨"augment_labels", true⟩]

/-- Python positional-argument binding: a call with `n` positional
arguments is well-formed iff it supplies at most the declared parameters
and every parameter left unsupplied has a default. -/
def bindsPositional (ps : List Param) (n : Nat) : Bool :=
  decide (n ≤ ps.length) && (ps.drop n).all (fun p => p.hasDefault)

/-- The required parameters a call with `n` positional arguments leaves
unbound. -/
def missingRequired (ps : List Param) (n : Nat) : List String :=
  ((ps.drop n).filter (fun p => !p.hasDefault)).map (fun p => p.name)

/-- Adjacent-stage consistency of the encoder table: a stage's output
channel count equals the next stage's expected input channel count. -/
def encLink (a b : String × Layer) : Prop :=
  a.2.out_channels = b.2.in_channels

/-- The construction-time bookkeeping invariant of the running channel
count `cout` (lines 177–198): starting from `c`, each successive entry
expects exactly the running count and updates it, ending at `cend`. -/
inductive ChainedFrom : Nat → List (String × Layer) → Nat → Prop
  | nil (c : Nat) : ChainedFrom c [] c
  | cons (c co cend : Nat) (e : String × Layer) (es : List (String × Layer)) :
      e.2.in_channels = some c → e.2.out_channels = some co →
      ChainedFrom co es cend → ChainedFrom c (e :: es) cend

/-- The module's own documented example configuration (docstring line
104): `GuidanceNet(img_resolution=16, in_channels=2, out_channels=2)`,
every other parameter at its default. -/
def cfgExample : Config :=
  { img_resolution := 16, in_channels := 2, out_channels := 2 }

/-- The documented example configuration with an unsupported pooling
mode. -/
def cfgAvg : Config :=
  { img_resolution := 16, in_channels := 2, out_channels := 2,
    pool := "avg" }

/-- Concrete kernels over `Int` feature tensors, for evaluating the
forward model at closed inputs. -/
def kInt : Kernels Int :=
  { siluQ := fun q => q, siluI := fun x => x }

/-- A concrete random-draw bundle. -/
def rngA : Rng Int :=
  { labelUs := [0], dropMask := fun _ x => x + 1 }

/-- A second concrete random-draw bundle, different from `rngA`. -/
def rngB : Rng Int :=
  { labelUs := [1/2], dropMask := fun _ x => x + 2 }

/-- A concrete forward state in evaluation mode. -/
def stEval : FwdState Int :=
  { map_noise := fun _ => [[1]], map_augment := none,
    map_layer0 := fun m => m, map_layer1 := fun m => m,
    map_label := some [[1]], label_dropout := 1/2, training := false,
    dropout := 1/10, enc := [EncBlockF.conv (fun x => x + 1)],
    linear_in := fun x => x, group_norm := fun x => x,
    linear_out := fun x => x }

/-- A concrete forward state with no label projection (as construction
with `label_dim = 0` produces) and no augmentation projection. -/
def stNoLabel : FwdState Int :=
  { stEval with map_label := none, training := true }

/-- A concrete forward state in training mode with full label dropout. -/
def stTrainFull : FwdState Int :=
  { stEval with training := true, label_dropout := 1 }

lemma ChainedFrom.head_in {c cend : Nat} {e : String × Layer}
    {es : List (String × Layer)} (h : ChainedFrom c (e :: es) cend) :
    e.2.in_channels = some c := by
  cases h with
  | cons _ co _ _ _ hin hout htail => exact hin

lemma ChainedFrom.append {c m cend : Nat} {l1 l2 : List (String × Layer)}
    (h1 : ChainedFrom c l1 m) :
    ChainedFrom m l2 cend → ChainedFrom c (l1 ++ l2) cend := by
  induction h1 with
  | nil c => intro h2; simpa using h2
  | cons c co ce e es hin hout htail ih =>
    intro h2
    exact ChainedFrom.cons _ co _ e _ hin hout (ih h2)

lemma ChainedFrom.chain' {c cend : Nat} {l : List (String × Layer)}
    (h : ChainedFrom c l cend) : List.Chain' encLink l := by
  induction h with
  | nil c => exact List.chain'_nil
  | cons c co ce e es hin hout htail ih =>
    cases es with
    | nil => exact List.chain'_singleton e
    | cons f fs =>
      refine List.Chain'.cons ?_ ih
      have hf := ChainedFrom.head_in htail
      rw [encLink, hout, hf]

lemma encInner_chained (res mc mult : Nat) (attn : List Nat) :
    ∀ n idx cout : Nat,
      ChainedFrom cout (encInner res mc mult attn n idx cout).1
        (encInner res mc mult attn n idx cout).2 := by
  intro n
  induction n with
  | zero => intro idx cout; exact ChainedFrom.nil cout
  | succ n ih =>
    intro idx cout
    simp only [encInner]
    exact ChainedFrom.cons cout (mc * mult) _ _ _ rfl rfl
      (ih (idx + 1) (mc * mult))

lemma encOuter_chained (imgRes mc nblocks : Nat) (attn : List Nat) :
    ∀ (mults : List Nat) (level cout : Nat),
      ChainedFrom cout (encOuter imgRes mc nblocks attn mults level cout).1
        (encOuter imgRes mc nblocks attn mults level cout).2 := by
  intro mults
  induction mults with
  | nil => intro level cout; exact ChainedFrom.nil cout
  | cons mult rest ih =>
    intro level cout
    by_cases h0 : level = 0
    · simp only [encOuter, if_pos h0]
      exact ChainedFrom.cons cout (mc * mult) _ _ _ rfl rfl
        (ChainedFrom.append
          (encInner_chained (imgRes >>> level) mc mult attn nblocks 0 (mc * mult))
          (ih (level + 1) _))
    · simp only [encOuter, if_neg h0]
      exact ChainedFrom.cons cout cout _ _ _ rfl rfl
        (ChainedFrom.append
          (encInner_chained (imgRes >>> level) mc mult attn nblocks 0 cout)
          (ih (level + 1) _))

lemma dotQ_zero_left {v : QVec} (w : QVec) (hv : ∀ a ∈ v, a = 0) :
    dotQ v w = 0 := by
  induction v generalizing w with
  | nil => simp [dotQ]
  | cons a v ih =>
    cases w with
    | nil => simp [dotQ]
    | cons b w =>
      have hstep : dotQ (a :: v) (b :: w) = a * b + dotQ v w := by
        simp [dotQ, List.zipWith_cons_cons]
      rw [hstep, hv a (by simp), ih w (fun x hx => hv x (by simp [hx]))]
      ring

lemma isZeroMat_iff {m : QMat} :
    isZeroMat m = true ↔ ∀ row ∈ m, ∀ a ∈ row, a = 0 := by
  simp [isZeroMat, List.all_eq_true]

lemma labelMask_one_zero (us : List ℚ) (cl : QMat)
    (hu : ∀ u ∈ us, u < 1) : isZeroMat (labelMask us 1 cl) = true := by
  rw [isZeroMat_iff]
  intro row hrow a ha
  induction us generalizing cl with
  | nil => simp [labelMask] at hrow
  | cons u us ih =>
    cases cl with
    | nil => simp [labelMask] at hrow
    | cons r rs =>
      rw [labelMask, List.zipWith_cons_cons, List.mem_cons] at hrow
      rcases hrow with hrow | hrow
      · subst hrow
        rcases List.mem_map.mp ha with ⟨b, _, rfl⟩
        rw [if_neg (not_le.mpr (hu u (by simp)))]
        ring
      · exact ih rs (fun x hx => hu x (by simp [hx])) hrow

lemma applyLinNB_zero (W : QMat) {m : QMat} (hm : isZeroMat m = true) :
    isZeroMat (applyLinNB W m) = true := by
  rw [isZeroMat_iff] at hm ⊢
  intro row2 hrow2 a ha
  rcases List.mem_map.mp hrow2 with ⟨row, hrow, rfl⟩
  rcases List.mem_map.mp ha with ⟨wr, _, rfl⟩
  exact dotQ_zero_left wr (hm row hrow)

/-- C1: for the module's own documented example configuration
(`img_resolution=16, in_channels=2, out_channels=2`, `pool="spatial"`),
construction does not succeed and so no forward call can return an output
batch of shape `(batch_size, out_channels)`: the constructor raises an
`AttributeError` at the read of the never-assigned `self._feature_size`
(line 204). -/
theorem construct_example_raises :
    (initGuidanceNet cfgExample).result =
      Except.error (InitError.attributeError "_feature_size") := by
  decide

/-- C2 counterexample: for `pool="avg"` at the documented example sizes,
construction does fail with `NotImplementedError`, but 19 sub-layers (the
whole mapping stack and encoder table) were already built before the
failure — the failure does not occur before any sub-layer is built. -/
theorem nonspatial_fail_not_before_build_cex :
    (initGuidanceNet cfgAvg).result =
      Except.error (InitError.notImplementedError "Unexpected avg pooling") ∧
    (initGuidanceNet cfgAvg).built.length = 19 := by
  decide

/-- C2 (amended): for every configuration whose `pool` is not
`"spatial"`, construction fails with `NotImplementedError`, but only
after the mapping-stack and encoder sub-layers have all been built (the
check of lines 202–208 follows their construction). -/
theorem nonspatial_pool_raises_after_build (cfg : Config)
    (h : cfg.pool ≠ "spatial") :
    (initGuidanceNet cfg).result =
      Except.error (InitError.notImplementedError (notImplementedMsg cfg.pool)) ∧
    (initGuidanceNet cfg).built =
      mappingLayers cfg ++ (encStages cfg).map Prod.snd ∧
    0 < (initGuidanceNet cfg).built.length := by
  have hres : initGuidanceNet cfg =
      { built := mappingLayers cfg ++ (encStages cfg).map Prod.snd,
        result := .error (.notImplementedError (notImplementedMsg cfg.pool)) } := by
    simp only [initGuidanceNet, if_neg h]
  refine ⟨by rw [hres], by rw [hres], ?_⟩
  rw [hres]
  simp [mappingLayers]

/-- C2 witness: the amended statement at the concrete `pool="avg"`
configuration. -/
theorem nonspatial_pool_raises_after_build_witness :
    (initGuidanceNet cfgAvg).result =
      Except.error (InitError.notImplementedError (notImplementedMsg cfgAvg.pool)) ∧
    (initGuidanceNet cfgAvg).built =
      mappingLayers cfgAvg ++ (encStages cfgAvg).map Prod.snd ∧
    0 < (initGuidanceNet cfgAvg).built.length :=
  nonspatial_pool_raises_after_build cfgAvg (by decide)

/-- C3: for every configuration with `pool = "spatial"`, construction of
the pooling head fails with an attribute-lookup error on the
never-assigned `self._feature_size` (line 204), and for every
configuration whatsoever the constructor returns no instance. -/
theorem spatial_init_attribute_error :
    (∀ cfg : Config, cfg.pool = "spatial" →
      (initGuidanceNet cfg).result =
        Except.error (InitError.attributeError "_feature_size")) ∧
    (∀ cfg : Config, initOk (initGuidanceNet cfg) = false) := by
  constructor
  · intro cfg h
    simp only [initGuidanceNet, if_pos h, dif_neg (by decide : ¬ "_feature_size" ∈ attrsAtPooling)]
  · intro cfg
    by_cases h : cfg.pool = "spatial"
    · simp only [initGuidanceNet, if_pos h,
        dif_neg (by decide : ¬ "_feature_size" ∈ attrsAtPooling), initOk]
    · simp only [initGuidanceNet, if_neg h, initOk]

/-- C3 witness: at the documented example configuration, construction
raises the `_feature_size` attribute error and yields no instance. -/
theorem spatial_init_attribute_error_witness :
    (initGuidanceNet cfgExample).result =
      Except.error (InitError.attributeError "_feature_size") ∧
    initOk (initGuidanceNet cfgExample) = false :=
  ⟨spatial_init_attribute_error.1 cfgExample rfl,
   spatial_init_attribute_error.2 cfgExample⟩

/-- C4: in the spatial pooling branch (lines 202–206), the value the
source assigns to the `"group_norm"` entry is the one-element tuple
containing the group-normalization layer — `GroupNorm(2048),` with the
trailing comma — and not a bare module, whatever values the
`_feature_size` and `out_channels` reads would produce. -/
theorem group_norm_entry_is_tuple (fs oc : Nat) :
    (spatialPoolAssigns fs oc).lookup "group_norm" =
      some (RhsVal.tupleVal [Layer.groupNorm 2048]) ∧
    Option.map RhsVal.isModule ((spatialPoolAssigns fs oc).lookup "group_norm") =
      some false := by
  exact ⟨rfl, rfl⟩

/-- C10: for every configuration, the encoder stage table is
channel-consistent: every stage's output channel count equals the next
stage's expected input channel count, and the first stage (when present)
expects exactly the configured `in_channels`. -/
theorem enc_stage_channels_consistent (cfg : Config) :
    List.Chain' encLink (encStages cfg) ∧
    ∀ e, (encStages cfg).head? = some e →
      e.2.in_channels = some cfg.in_channels := by
  have h := encOuter_chained cfg.img_resolution cfg.model_channels
    cfg.num_blocks cfg.attn_resolutions cfg.channel_mult 0 cfg.in_channels
  have h2 : ChainedFrom cfg.in_channels (encStages cfg)
      (encOuter cfg.img_resolution cfg.model_channels cfg.num_blocks
        cfg.attn_resolutions cfg.channel_mult 0 cfg.in_channels).2 := h
  refine ⟨ChainedFrom.chain' h2, ?_⟩
  intro e he
  cases hl : encStages cfg with
  | nil => rw [hl] at he; simp at he
  | cons f fs =>
    rw [hl] at he h2
    have : f = e := by simpa using he
    subst this
    exact ChainedFrom.head_in h2

/-- C10 witness: at the documented example configuration the encoder
table is channel-consistent and its first stage is the 16×16 convolution
expecting the 2 input channels. -/
theorem enc_stage_channels_consistent_witness :
    List.Chain' encLink (encStages cfgExample) ∧
    (("16x16_conv", Layer.conv2d 2 192 3) : String × Layer).2.in_channels =
      some cfgExample.in_channels :=
  ⟨(enc_stage_channels_consistent cfgExample).1,
   (enc_stage_channels_consistent cfgExample).2
     ("16x16_conv", Layer.conv2d 2 192 3) (by decide)⟩

/-- C5: in evaluation mode (`training = false`), the forward pass is a
deterministic function of its inputs: for any fixed state, two calls with
identical inputs but different random draws (the per-sample label-dropout
draws and the pooling-head dropout mask) produce identical outputs, since
both dropout sites are disabled. -/
theorem forward_deterministic_eval {I : Type} (k : Kernels I)
    (st : FwdState I) (x : I) (noise_labels : List ℚ) (class_labels : QMat)
    (augment_labels : Option QMat) (r1 r2 : Rng I)
    (h : st.training = false) :
    forward k st x noise_labels class_labels augment_labels r1 =
      forward k st x noise_labels class_labels augment_labels r2 := by
  cases hl : st.map_label <;>
    cases ha : st.map_augment <;>
      cases augment_labels <;>
        simp [forward, droppedLabels, h, hl, ha]

/-- C5 witness: the evaluation-mode state `stEval` at a concrete input,
under two different random-draw bundles. -/
theorem forward_deterministic_eval_witness :
    stEval.training = false ∧
    forward kInt stEval 0 [0] [[1]] none rngA =
      forward kInt stEval 0 [0] [[1]] none rngB :=
  ⟨rfl, forward_deterministic_eval kInt stEval 0 [0] [[1]] none rngA rngB rfl⟩

/-- C6: with `label_dim = 0` construction produces no label projection
(`map_label = None`, lines 163–173), and for any forward state without a
label projection the output is independent of the supplied class-label
batch (the label branch of lines 217–223 is skipped). -/
theorem label_dim_zero_ignores_class_labels :
    (∀ cfg : Config, cfg.label_dim = 0 → mapLabelLayer cfg = none) ∧
    (∀ (I : Type) (k : Kernels I) (st : FwdState I) (x : I)
        (noise_labels : List ℚ) (cl1 cl2 : QMat)
        (augment_labels : Option QMat) (rng : Rng I),
      st.map_label = none →
        forward k st x noise_labels cl1 augment_labels rng =
          forward k st x noise_labels cl2 augment_labels rng) := by
  constructor
  · intro cfg h
    simp [mapLabelLayer, h]
  · intro I k st x nl cl1 cl2 aug rng h
    cases ha : st.map_augment <;> cases aug <;> simp [forward, h, ha]

/-- C6 witness: `cfgExample` has `label_dim = 0`, and the no-label state
`stNoLabel` gives the same output on two different class-label batches. -/
theorem label_dim_zero_ignores_class_labels_witness :
    mapLabelLayer cfgExample = none ∧
    forward kInt stNoLabel 0 [0] [[1]] none rngA =
      forward kInt stNoLabel 0 [0] [[2]] none rngA :=
  ⟨label_dim_zero_ignores_class_labels.1 cfgExample rfl,
   label_dim_zero_ignores_class_labels.2 Int kInt stNoLabel 0 [0]
     [[1]] [[2]] none rngA rfl⟩

/-- C7: with `augment_dim = 0` construction produces no augmentation
projection (`map_augment = None`, lines 147–156), and for any forward
state without one the output is independent of the supplied
augmentation-label batch (the branch of lines 213–214 is skipped). -/
theorem augment_dim_zero_ignores_augment_labels :
    (∀ cfg : Config, cfg.augment_dim = 0 → mapAugmentLayer cfg = none) ∧
    (∀ (I : Type) (k : Kernels I) (st : FwdState I) (x : I)
        (noise_labels : List ℚ) (cl : QMat) (aug1 aug2 : Option QMat)
        (rng : Rng I),
      st.map_augment = none →
        forward k st x noise_labels cl aug1 rng =
          forward k st x noise_labels cl aug2 rng) := by
  constructor
  · intro cfg h
    simp [mapAugmentLayer, h]
  · intro I k st x nl cl aug1 aug2 rng h
    cases hl : st.map_label <;> cases aug1 <;> cases aug2 <;>
      simp [forward, h, hl]

/-- C7 witness: `cfgExample` has `augment_dim = 0`, and the
no-augmentation state `stNoLabel` gives the same output whether the
augmentation batch is omitted (`None`) or supplied. -/
theorem augment_dim_zero_ignores_augment_labels_witness :
    mapAugmentLayer cfgExample = none ∧
    forward kInt stNoLabel 0 [0] [[1]] none rngA =
      forward kInt stNoLabel 0 [0] [[1]] (some [[3]]) rngA :=
  ⟨augment_dim_zero_ignores_augment_labels.1 cfgExample rfl,
   augment_dim_zero_ignores_augment_labels.2 Int kInt stNoLabel 0 [0]
     [[1]] none (some [[3]]) rngA rfl⟩

/-- C8: in training mode with `label_dropout = 1`, every per-sample mask
value is zero (each uniform draw `u < 1` compares `>= 1` as false), the
masked label batch is the zero batch, and hence the label contribution
`map_label(tmp)` added to the embedding (line 223) is the zero batch for
every sample on every call. -/
theorem full_label_dropout_zero_contribution {I : Type} (st : FwdState I)
    (W cl : QMat) (us : List ℚ)
    (htr : st.training = true) (hp : st.label_dropout = 1)
    (hu : ∀ u ∈ us, u < 1) :
    (∀ u ∈ us, (if st.label_dropout ≤ u then (1 : ℚ) else 0) = 0) ∧
    isZeroMat (droppedLabels st.training st.label_dropout us cl) = true ∧
    isZeroMat
      (applyLinNB W (droppedLabels st.training st.label_dropout us cl)) =
      true := by
  have hd : droppedLabels st.training st.label_dropout us cl =
      labelMask us 1 cl := by
    rw [htr, hp]
    simp [droppedLabels]
  refine ⟨?_, ?_, ?_⟩
  · intro u hu'
    rw [hp, if_neg (not_le.mpr (hu u hu'))]
  · rw [hd]
    exact labelMask_one_zero us cl hu
  · rw [hd]
    exact applyLinNB_zero W (labelMask_one_zero us cl hu)

/-- C8 witness: the training-mode full-dropout state `stTrainFull`, two
samples with draws 0 and 1/2, a concrete label batch and label weight. -/
theorem full_label_dropout_zero_contribution_witness :
    (∀ u ∈ [(0 : ℚ), mkRat 1 2],
      (if stTrainFull.label_dropout ≤ u then (1 : ℚ) else 0) = 0) ∧
    isZeroMat (droppedLabels stTrainFull.training stTrainFull.label_dropout
      [0, mkRat 1 2] [[3, 4], [5, 6]]) = true ∧
    isZeroMat (applyLinNB [[1, 2]]
      (droppedLabels stTrainFull.training stTrainFull.label_dropout
        [0, mkRat 1 2] [[3, 4], [5, 6]])) = true :=
  full_label_dropout_zero_contribution stTrainFull [[1, 2]]
    [[3, 4], [5, 6]] [0, mkRat 1 2] rfl rfl (by decide)

/-- C9 counterexample: the `forward` signature (line 210) gives no
default to `class_labels`, so a call supplying only the image batch and
the noise-level batch leaves a required parameter unbound and is not
well-formed. -/
theorem forward_two_args_ill_formed :
    bindsPositional forwardParams 2 = false ∧
    missingRequired forwardParams 2 = ["class_labels"] := by
  decide

/-- C9 (amended): the forward call accepts the augmentation-label batch
as optional (default `None`), but the class-label batch is required: a
call supplying image, noise-level and class-label batches is well-formed,
while omitting both label batches is not, `class_labels` being the
missing required parameter. -/
theorem forward_optional_args_amended :
    bindsPositional forwardParams 3 = true ∧
    bindsPositional forwardParams 4 = true ∧
    bindsPositional forwardParams 2 = false ∧
    (forwardParams.filter (fun p => !p.hasDefault)).map (fun p => p.name) =
      ["x", "noise_labels", "class_labels"] := by
  decide

end Guidance
